import Mathlib

/-!
Verification of the GPU command-stream instrumentation engine of
`src/android_gpu_vk_usage.cpp` (the current revision, lines 1-1367 of the
concatenated file).  The C++ code is shallowly embedded: machine `uint64_t`
values are `Nat` with explicit masking (`&&&` with the context's timestamp
mask), `double`/`float` arithmetic is modelled over `ℚ` (all values the
claims exercise are exactly representable, and the code's `isfinite`
checks are vacuous over `ℚ`), Vulkan driver calls are oracles passed in as
parameters, and each stateful entry point is an explicit state
transformer on a `GpuCtx` record mirroring `struct AndroidVkGpuContext`.
-/

/-- `AndroidVkGpuContext::MAX_FRAMES` : number of ring slots. -/
def MAX_FRAMES : Nat := 16

/-- `AndroidVkGpuContext::MAX_QUERIES_PER_FRAME` : queries per slot. -/
def MAX_QUERIES_PER_FRAME : Nat := 128

/-- `AndroidVkGpuContext::FRAME_LAG`. -/
def FRAME_LAG : Nat := 3

/-- `AndroidVkGpuContext::WARMUP_TIMESTAMP_PAIRS`. -/
def WARMUP_TIMESTAMP_PAIRS : Nat := 2

/-- `MAX_PAIRS_PER_SAMPLED_FRAME` (local constant of both submit wrappers). -/
def MAX_PAIRS_PER_SAMPLED_FRAME : Nat := 16

/-- `std::numeric_limits<uint64_t>::max()`, the slot-serial sentinel and the
initial `min_start_ts` accumulator of the read path. -/
def UMAX : Nat := 2 ^ 64 - 1

/-- The `ts_mask` formula of `android_gpu_usage_init_timestamp_resources`
(line 204): `(vb >= 64) ? ~0ULL : ((1ULL << vb) - 1ULL)`. -/
def ts_mask_init (vb : Nat) : Nat :=
  if 64 ≤ vb then UMAX else 2 ^ vb - 1

/-- The `ts_mask` formula of `android_gpu_usage_create` (lines 618-622):
`ts_valid_bits == 0 || >= 64 → ~0ULL`, else `(1ULL << vb) - 1ULL`. -/
def ts_mask_create (vb : Nat) : Nat :=
  if vb = 0 ∨ 64 ≤ vb then UMAX else 2 ^ vb - 1

/-- One timestamp query pair as returned by `vkGetQueryPoolResults` with
`VK_QUERY_RESULT_WITH_AVAILABILITY_BIT`: raw 64-bit start/end tick values
and their availability words (`scratch[q*2+0]` / `scratch[q*2+1]` for the
two queries `2i` and `2i+1` of pair `i`). -/
structure PairRaw where
  sVal : Nat
  sAvail : Nat
  eVal : Nat
  eAvail : Nat
  deriving DecidableEq, Repr

/-- Result codes of the modelled native Vulkan calls (`VkResult` collapsed
to the cases the code distinguishes: `VK_SUCCESS`, `VK_NOT_READY`,
`VK_ERROR_DEVICE_LOST`, any other negative result). -/
inductive VRes where
  | success
  | notReady
  | errDeviceLost
  | errOther
  deriving DecidableEq, Repr

/-- `enum class AndroidGpuReadStatus` (line 439). -/
inductive ReadStatus where
  | Ready
  | NotReady
  | Error
  | DeviceLost
  deriving DecidableEq, Repr

/-- Masked start tick of a pair: `scratch[qs*2+0] & ctx->ts_mask`
(line 507). -/
def pairStart (mask : Nat) (p : PairRaw) : Nat :=
  p.sVal &&& mask

/-- Unwrapped end tick of a pair (lines 508-511): mask the raw end value,
then, when `0 < ts_valid_bits < 64` and the masked end precedes the masked
start, add `1 << ts_valid_bits` to undo the counter wrap. -/
def pairEnd (vb mask : Nat) (p : PairRaw) : Nat :=
  let e := p.eVal &&& mask
  if 0 < vb ∧ vb < 64 ∧ e < pairStart mask p then e + 2 ^ vb else e

/-- One iteration of the per-pair loop of
`android_gpu_usage_query_range_gpu_ms` (lines 503-524) over the
accumulator `(min_start_ts, max_end_ts, sum_ms)`.  A pair with
`end_ts <= start_ts` after unwrapping is skipped (`continue`); otherwise
the min/max trackers are updated and, when the pair's millisecond value is
positive, it is added to `sum_ms`. -/
def collectStep (vb mask : Nat) (period : ℚ) (acc : Nat × Nat × ℚ)
    (p : PairRaw) : Nat × Nat × ℚ :=
  let s := pairStart mask p
  let e := pairEnd vb mask p
  if e ≤ s then acc
  else
    let mn := if s < acc.1 then s else acc.1
    let mx := if acc.2.1 < e then e else acc.2.1
    let delta := e - s
    let ms : ℚ := (delta : ℚ) * period * (1 / 1000000)
    let sm := if 0 < ms then acc.2.2 + ms else acc.2.2
    (mn, mx, sm)

/-- `android_gpu_usage_query_range_gpu_ms` (lines 446-542), embedded over
its inputs: the context's timestamp parameters, the driver's return code
for the `vkGetQueryPoolResults` call, and the decoded scratch contents as
a list of pairs (`query_count = 2 * pairs.length`, so the
"`query_count < 2` or odd" guard of lines 460-461 is `pairs = []`; the
driver writes `pairs` only on success, so the list is meaningful only in
the `success` branch).  Returns the status together with the value written
through `out_gpu_ms` (`none` when nothing is written). -/
def query_range_gpu_ms (vb mask : Nat) (period : ℚ) (r : VRes)
    (pairs : List PairRaw) : ReadStatus × Option ℚ :=
  if pairs.isEmpty then (.Error, none)
  else
    match r with
    | .errDeviceLost => (.DeviceLost, none)
    | .notReady => (.NotReady, none)
    | .errOther => (.Error, none)
    | .success =>
      if pairs.any (fun p => p.sAvail = 0 ∨ p.eAvail = 0) then (.NotReady, none)
      else
        let acc := pairs.foldl (collectStep vb mask period) (UMAX, 0, 0)
        let range_ms : ℚ :=
          if acc.1 < acc.2.1 ∧ acc.1 ≠ UMAX then
            ((acc.2.1 - acc.1 : Nat) : ℚ) * period * (1 / 1000000)
          else 0
        let gpu_ms : ℚ :=
          if 0 < acc.2.2 then acc.2.2
          else if 0 < range_ms then range_ms
          else 0
        if 0 < gpu_ms then (.Ready, some gpu_ms) else (.Error, none)

-- ====================== Submit-path state model ======================

/-- `AndroidVkGpuContext::FrameResources` (lines 35-43).  `cmd_pool` is
`cmd_pool != VK_NULL_HANDLE`, `num_cmds` is `timestamp_cmds.size()`. -/
structure FrameSlot where
  cmd_pool : Bool := false
  query_start : Nat := 0
  query_capacity : Nat := 0
  query_used : Nat := 0
  has_queries : Bool := false
  frame_serial : Nat := UMAX
  num_cmds : Nat := 0
  deriving DecidableEq, Repr

instance : Inhabited FrameSlot := ⟨{}⟩

/-- `struct AndroidVkGpuContext` (lines 16-90), restricted to the fields
the embedded entry points read or write.  `envEnabled` is the cached
`MANGOHUD_VKP=1` flag, `inited` is `query_pool != VK_NULL_HANDLE`,
`queue_family_index = none` is `VK_QUEUE_FAMILY_IGNORED`.  Times are in
milliseconds over `ℚ`. -/
structure GpuCtx where
  envEnabled : Bool
  ts_supported : Bool
  ts_valid_bits : Nat
  ts_mask : Nat
  ts_period_ns : ℚ
  inited : Bool
  queue_family_index : Option Nat
  frames : List FrameSlot
  frame_index : Nat
  read_serial : Nat
  destroying : Bool
  window_start : ℚ
  acc_cpu_ms_sampled : ℚ
  acc_frames_sampled : Nat
  acc_gpu_ms : ℚ
  acc_gpu_samples : Nat
  smooth_gpu_ms : ℚ
  smooth_usage : ℚ
  last_gpu_ms : ℚ
  last_usage : ℚ
  have_metrics : Bool
  deriving DecidableEq, Repr

/-- Read slot `i` of the ring (out-of-range reads never happen in the
code; `default` keeps the model total). -/
def GpuCtx.slot (ctx : GpuCtx) (i : Nat) : FrameSlot :=
  ctx.frames.getD i default

/-- Write slot `i` of the ring. -/
def GpuCtx.setSlot (ctx : GpuCtx) (i : Nat) (fr : FrameSlot) : GpuCtx :=
  { ctx with frames := ctx.frames.set i fr }

/-- `VkQueueFamilyProperties`, restricted to the two fields the code
reads: `timestampValidBits` and `queueFlags & VK_QUEUE_GRAPHICS_BIT`. -/
structure QFProps where
  timestampValidBits : Nat := 0
  graphics : Bool := false
  deriving DecidableEq, Repr

instance : Inhabited QFProps := ⟨{}⟩

/-- Oracle outcomes of the native Vulkan calls made by lazy
initialization and command recording: the queue-family property table,
whether the dispatch table has the command-pool / recording entry points,
and the success of each fallible creation call.  `cmdPoolFail = some k`
makes `CreateCommandPool` fail at ring slot `k`. -/
structure Env where
  qfs : List QFProps
  hasCmdPoolFns : Bool := true
  createQueryPoolOk : Bool := true
  cmdPoolFail : Option Nat := none
  warmAllocOk : Bool := true
  hasRecordFns : Bool := true
  allocOk : Bool := true
  recordOk : Bool := true

/-- `android_gpu_usage_destroy_timestamp_resources` (lines 136-161):
destroys every slot's command pool and clears its occupancy, destroys the
query pool, and resets `queue_family_index` to ignored. -/
def destroy_resources (ctx : GpuCtx) : GpuCtx :=
  { ctx with
    frames := ctx.frames.map fun fr =>
      { fr with cmd_pool := false, num_cmds := 0, query_used := 0,
                has_queries := false, frame_serial := UMAX }
    inited := false
    queue_family_index := none }

/-- The fully initialized slot ring built by the success path of
`android_gpu_usage_init_timestamp_resources` (lines 236-289): slot `i`
owns queries `[i*128, i*128+128)` and, when the warm-up allocation
succeeds, `WARMUP_TIMESTAMP_PAIRS` pre-allocated begin/end pairs. -/
def init_slots (warmOk : Bool) : List FrameSlot :=
  (List.range MAX_FRAMES).map fun i =>
    { cmd_pool := true
      query_start := i * MAX_QUERIES_PER_FRAME
      query_capacity := MAX_QUERIES_PER_FRAME
      query_used := 0
      has_queries := false
      frame_serial := UMAX
      num_cmds := if warmOk then 2 * WARMUP_TIMESTAMP_PAIRS else 0 }

/-- `android_gpu_usage_init_timestamp_resources` (lines 163-300).
Returns the C++ `bool` result and the updated context.  Note the
asymmetry the spec glosses over: a queue family with
`timestampValidBits == 0` (or an out-of-range index, or a creation
failure) stores `ts_supported = false`, disabling the backend for the
context's lifetime, while a family without `VK_QUEUE_GRAPHICS_BIT` merely
returns `false` with `ts_supported` untouched (lines 196-201). -/
def init_timestamp_resources (env : Env) (ctx : GpuCtx) (qfi : Nat) :
    Bool × GpuCtx :=
  if ¬ ctx.ts_supported then (false, ctx)
  else if ctx.inited then (true, ctx)
  else
    let ctx := { ctx with queue_family_index := some qfi }
    if env.qfs.length ≤ qfi then (false, { ctx with ts_supported := false })
    else
      let qf := env.qfs.getD qfi default
      if qf.timestampValidBits = 0 then (false, { ctx with ts_supported := false })
      else if ¬ qf.graphics then (false, ctx)
      else
        let ctx := { ctx with
          ts_valid_bits := qf.timestampValidBits
          ts_mask := ts_mask_init qf.timestampValidBits }
        if ¬ env.hasCmdPoolFns then (false, { ctx with ts_supported := false })
        else if ¬ env.createQueryPoolOk then
          (false, { ctx with ts_supported := false })
        else
          match env.cmdPoolFail with
          | some k =>
            if k < MAX_FRAMES then
              (false, destroy_resources { ctx with ts_supported := false })
            else (true, { ctx with inited := true,
                                   frames := init_slots env.warmAllocOk })
          | none => (true, { ctx with inited := true,
                                      frames := init_slots env.warmAllocOk })

/-- `android_gpu_usage_consume_slot` (lines 544-550). -/
def consume_slot (fr : FrameSlot) : FrameSlot :=
  { fr with has_queries := false, query_used := 0, frame_serial := UMAX }

/-- `android_gpu_usage_begin_frame` (lines 302-343): reuse the slot if it
already carries this serial; refuse to overwrite a slot with undrained
queries unless it is at least a full ring period old (then force-drop
it); otherwise assign the serial and clear the counters. -/
def begin_frame (ctx : GpuCtx) (idx : Nat) (serial : Nat) :
    Bool × GpuCtx :=
  let fr := ctx.slot idx
  if fr.frame_serial = serial then (true, ctx)
  else if fr.has_queries ∧ fr.frame_serial ≠ UMAX then
    let age := if fr.frame_serial < serial then serial - fr.frame_serial
               else UMAX
    if age < MAX_FRAMES then (false, ctx)
    else (false, ctx.setSlot idx (consume_slot fr))
  else
    (true, ctx.setSlot idx
      { fr with frame_serial := serial, query_used := 0, has_queries := false })

/-- `android_gpu_usage_record_timestamp_pair` (lines 346-437): reserve the
next query pair and the matching begin/end command-buffer slots, growing
`timestamp_cmds` by one pair if needed, record both buffers, and only on
full success commit `query_used += 2` / `has_queries = true`.  Returns
`(some (query_first, begin_idx, end_idx), fr')` on success and
`(none, fr')` on failure (`fr'` differs from `fr` at most in the grown
`num_cmds`). -/
def record_timestamp_pair (env : Env) (poolPresent : Bool)
    (fr : FrameSlot) : Option (Nat × Nat × Nat) × FrameSlot :=
  if ¬ poolPresent then (none, fr)
  else if ¬ env.hasRecordFns then (none, fr)
  else if fr.query_capacity < fr.query_used + 2 then (none, fr)
  else
    let pair_index := fr.query_used / 2
    let query_first := fr.query_start + fr.query_used
    let begin_idx := pair_index * 2
    let end_idx := begin_idx + 1
    let grow := fr.num_cmds ≤ end_idx
    if grow ∧ MAX_QUERIES_PER_FRAME < fr.num_cmds + 2 then (none, fr)
    else if grow ∧ ¬ env.allocOk then (none, fr)
    else
      let fr := if grow then { fr with num_cmds := fr.num_cmds + 2 } else fr
      if ¬ env.recordOk then (none, fr)
      else
        (some (query_first, begin_idx, end_idx),
         { fr with query_used := fr.query_used + 2, has_queries := true })

/-- Command-buffer handles: `appCB n` is an application-owned
`VkCommandBuffer`, `tsCB j` is `fr.timestamp_cmds[j]` of the current
slot. -/
inductive CB where
  | appCB (n : Nat)
  | tsCB (j : Nat)
  deriving DecidableEq, Repr

/-- `VkSubmitInfo`: the fields the wrapper reads
(`commandBufferCount` / `pCommandBuffers`, the latter as the list of
handles; other fields ride along unchanged and are omitted). -/
structure Submission where
  cbs : List CB
  deriving DecidableEq, Repr

/-- `VkSubmitInfo2`: `pCommandBufferInfos` as a list of
`(commandBuffer, deviceMask)` entries. -/
structure Submission2 where
  infos : List (CB × Nat)
  deriving DecidableEq, Repr

/-- The "submission shape" both wrappers share (`VkSubmitInfo` vs
`VkSubmitInfo2`): the per-submission command-buffer count, the
null-pointer test on the buffer array, and the construction of the
wrapped submission `begin ++ originals ++ end` from the two reserved
timestamp command-buffer indices. -/
structure SubShape (α : Type) where
  base : α → Nat
  nonnull : α → Bool
  wrap : α → Nat → Nat → α

/-- Shape of `android_gpu_usage_queue_submit` (`VkSubmitInfo`,
lines 780-851): `dst_bufs = [cmd_begin] ++ src buffers ++ [cmd_end]`. -/
def shapeV1 : SubShape Submission where
  base s := s.cbs.length
  nonnull _ := true
  wrap s b e := ⟨CB.tsCB b :: s.cbs ++ [CB.tsCB e]⟩

/-- Shape of `android_gpu_usage_queue_submit2` (`VkSubmitInfo2`,
lines 981-1065): begin/end entries are built by `make_cb_info`, whose
`deviceMask` copies `pCommandBufferInfos[0]` when present and defaults to
`0x1`. -/
def shapeV2 : SubShape Submission2 where
  base s := s.infos.length
  nonnull _ := true
  wrap s b e :=
    let tmpl := match s.infos with
      | [] => 1
      | i :: _ => i.2
    ⟨(CB.tsCB b, tmpl) :: s.infos ++ [(CB.tsCB e, tmpl)]⟩

/-- The planning loop of both wrappers (lines 780-800 / 981-1001): fold
over the submissions deciding `inst[i]`, under the per-sampled-frame pair
budget `min(MAX_PAIRS_PER_SAMPLED_FRAME, query_capacity/2)` and the
remaining query-range room `query_used + (planned+1)*2 <= capacity`.
Planning reads but never writes `fr.query_used`. -/
def planSubmits {α : Type} (sh : SubShape α) (fr : FrameSlot)
    (subs : List α) : List Bool :=
  let pair_budget := min MAX_PAIRS_PER_SAMPLED_FRAME (fr.query_capacity / 2)
  (subs.foldl
    (fun (acc : List Bool × Nat) s =>
      let basic_ok := 0 < sh.base s ∧ sh.nonnull s ∧ fr.cmd_pool
      let room_ok := acc.2 < pair_budget ∧
        fr.query_used + (acc.2 + 1) * 2 ≤ fr.query_capacity
      if basic_ok ∧ room_ok then (acc.1 ++ [true], acc.2 + 1)
      else (acc.1 ++ [false], acc.2))
    ([], 0)).1

/-- The recording loop of both wrappers (lines 814-851 / 1015-1065):
walks the submissions with their planned `inst` flags, reserving and
recording a timestamp pair for each instrumented one.  A recording
failure demotes that submission to pass-through (`inst[i] = 0`, the
original buffers are copied unwrapped).  Returns the slot after all
reservations and the wrapped submission list. -/
def recordLoop {α : Type} (sh : SubShape α) (env : Env)
    (poolPresent : Bool) :
    FrameSlot → List (α × Bool) → FrameSlot × List α
  | fr, [] => (fr, [])
  | fr, (s, inst) :: rest =>
    if inst then
      match record_timestamp_pair env poolPresent fr with
      | (some (_, b, e), fr') =>
        let r := recordLoop sh env poolPresent fr' rest
        (r.1, sh.wrap s b e :: r.2)
      | (none, fr') =>
        let r := recordLoop sh env poolPresent fr' rest
        (r.1, s :: r.2)
    else
      let r := recordLoop sh env poolPresent fr rest
      (r.1, s :: r.2)

/-- The instrumented tail of both submit wrappers (lines 754-864 /
954-1078), entered after `begin_frame` succeeded for ring slot `idx`:
snapshot `saved_query_used` / `saved_has_queries`, plan, pass through
unchanged if nothing qualifies, otherwise record and call the native
submit once with the wrapped list.  On a non-success result the snapshot
is restored (rollback), and `VK_ERROR_DEVICE_LOST` additionally disables
the backend and frees the timestamp resources.  The third component is
the trace of native submit calls actually performed. -/
def instrumentAndSubmit {α : Type} (sh : SubShape α)
    (native : List α → VRes) (env : Env) (ctx : GpuCtx) (idx : Nat)
    (subs : List α) : VRes × GpuCtx × List (List α) :=
  let fr := ctx.slot idx
  let saved_query_used := fr.query_used
  let saved_has_queries := fr.has_queries
  let plan := planSubmits sh fr subs
  if ¬ plan.any id then (native subs, ctx, [subs])
  else
    let rec' := recordLoop sh env ctx.inited fr (subs.zip plan)
    let ctx' := ctx.setSlot idx rec'.1
    let vr := native rec'.2
    if vr = .success then (vr, ctx', [rec'.2])
    else
      let ctx'' := ctx'.setSlot idx
        { rec'.1 with query_used := saved_query_used,
                      has_queries := saved_has_queries }
      if vr = .errDeviceLost then
        (vr, destroy_resources { ctx'' with ts_supported := false }, [rec'.2])
      else (vr, ctx'', [rec'.2])

/-- The common algorithm of `android_gpu_usage_queue_submit`
(lines 696-888) and `android_gpu_usage_queue_submit2` (lines 892-1100),
parameterized over the submission shape; the C++ exception paths
(`catch` blocks) are outside the model.  Early exits — empty submission
array, backend disabled by environment or capability, odd frame serial
(the 50% sampling policy), failed lazy init, queue-family mismatch,
`begin_frame` refusal — forward the original list to the native submit
untouched. -/
def queue_submit_core {α : Type} (sh : SubShape α)
    (native : List α → VRes) (env : Env) (ctx : GpuCtx) (qfi : Nat)
    (subs : List α) : VRes × GpuCtx × List (List α) :=
  if subs.isEmpty then (native subs, ctx, [subs])
  else if ¬ ctx.envEnabled then (native subs, ctx, [subs])
  else if ¬ ctx.ts_supported then (native subs, ctx, [subs])
  else if ctx.frame_index % 2 = 1 then (native subs, ctx, [subs])
  else
    let ini := init_timestamp_resources env ctx qfi
    if ¬ ini.1 then (native subs, ini.2, [subs])
    else
      let ctx₁ := ini.2
      if ctx₁.inited ∧ ctx₁.queue_family_index ≠ none ∧
         ctx₁.queue_family_index ≠ some qfi then
        (native subs, ctx₁, [subs])
      else
        let serial := ctx₁.frame_index
        let idx := serial % MAX_FRAMES
        let bf := begin_frame ctx₁ idx serial
        if ¬ bf.1 then (native subs, bf.2, [subs])
        else instrumentAndSubmit sh native env bf.2 idx subs

/-- `android_gpu_usage_queue_submit` (lines 696-888). -/
def queue_submit (native : List Submission → VRes) (env : Env)
    (ctx : GpuCtx) (qfi : Nat) (subs : List Submission) :
    VRes × GpuCtx × List (List Submission) :=
  queue_submit_core shapeV1 native env ctx qfi subs

/-- `android_gpu_usage_queue_submit2` (lines 892-1100). -/
def queue_submit2 (native : List Submission2 → VRes) (env : Env)
    (ctx : GpuCtx) (qfi : Nat) (subs : List Submission2) :
    VRes × GpuCtx × List (List Submission2) :=
  queue_submit_core shapeV2 native env ctx qfi subs

-- ====================== Metrics aggregator ======================

/-- The clamped usage percentage a closing window computes
(lines 1280-1292): `usage = (avg_gpu_ms / avg_cpu_ms) * 100` when both
averages are positive (0 otherwise), clamped into `[0, 100]`. -/
def usageOf (ctx : GpuCtx) : ℚ :=
  let avg_cpu_ms := ctx.acc_cpu_ms_sampled / (ctx.acc_frames_sampled : ℚ)
  let avg_gpu_ms := ctx.acc_gpu_ms / (ctx.acc_gpu_samples : ℚ)
  let usage₀ : ℚ :=
    if 0 < avg_cpu_ms ∧ 0 < avg_gpu_ms then (avg_gpu_ms / avg_cpu_ms) * 100
    else 0
  let usage₁ := if usage₀ < 0 then 0 else usage₀
  if 100 < usage₁ then 100 else usage₁

/-- The 500 ms window-close block of `android_gpu_usage_on_present`
(lines 1271-1318), as a function of the present time `now`
(milliseconds): when the window has elapsed, and only when the window
gathered at least one successfully measured GPU sample (and a sampled
CPU total), compute `usage = (avg_gpu_ms / avg_cpu_ms) * 100`, clamp to
`[0, 100]`, emit it unblended on the very first window and blended with
`alpha = 0.5` afterwards; windows without usable samples leave every
smoothed output and `have_metrics` untouched.  The accumulators and the
window timer restart either way. -/
def metrics_window_update (now : ℚ) (ctx : GpuCtx) : GpuCtx :=
  if 500 ≤ now - ctx.window_start then
    let ctx₁ :=
      if 0 < ctx.acc_gpu_samples ∧ 0 < ctx.acc_frames_sampled ∧
         0 < ctx.acc_cpu_ms_sampled then
        let avg_gpu_ms := ctx.acc_gpu_ms / (ctx.acc_gpu_samples : ℚ)
        let usage := usageOf ctx
        let alpha : ℚ := 1 / 2
        let su := if ¬ ctx.have_metrics then usage
                  else ctx.smooth_usage * (1 - alpha) + usage * alpha
        let sg := if ¬ ctx.have_metrics then avg_gpu_ms
                  else ctx.smooth_gpu_ms * (1 - alpha) + avg_gpu_ms * alpha
        { ctx with smooth_usage := su, smooth_gpu_ms := sg,
                   last_usage := su, last_gpu_ms := sg, have_metrics := true }
      else ctx
    { ctx₁ with acc_cpu_ms_sampled := 0, acc_frames_sampled := 0,
                acc_gpu_ms := 0, acc_gpu_samples := 0, window_start := now }
  else ctx

-- ====================== Metrics pull ======================

/-- `android_gpu_usage_get_metrics` (lines 1343-1367).  The caller's two
output cells are modelled explicitly: the function returns the C++ `bool`
together with the cells' contents after the call. -/
def get_metrics (ctx : Option GpuCtx) (out : ℚ × ℚ) : Bool × (ℚ × ℚ) :=
  match ctx with
  | none => (false, out)
  | some c =>
    if ¬ c.envEnabled then (false, out)
    else if ¬ c.have_metrics then (false, out)
    else (true, (c.last_gpu_ms, c.last_usage))

-- ====================== Concrete fixtures ======================

/-- A freshly created context as `android_gpu_usage_create` leaves it with
`MANGOHUD_VKP=1`, a usable dispatch table and a positive timestamp
period: backend enabled, resources not yet initialized. -/
def baseCtx : GpuCtx where
  envEnabled := true
  ts_supported := true
  ts_valid_bits := 64
  ts_mask := ts_mask_create 64
  ts_period_ns := 1000000
  inited := false
  queue_family_index := none
  frames := List.replicate MAX_FRAMES {}
  frame_index := 0
  read_serial := 0
  destroying := false
  window_start := 0
  acc_cpu_ms_sampled := 0
  acc_frames_sampled := 0
  acc_gpu_ms := 0
  acc_gpu_samples := 0
  smooth_gpu_ms := 0
  smooth_usage := 0
  last_gpu_ms := 0
  last_usage := 0
  have_metrics := false

/-- A benign native environment: one graphics-capable queue family with
36 timestamp valid bits, all creation calls succeeding. -/
def env0 : Env where
  qfs := [⟨36, true⟩]

/-- `baseCtx` after a successful lazy initialization against queue
family 0, about to instrument frame serial 0. -/
def initedCtx : GpuCtx :=
  { baseCtx with inited := true, queue_family_index := some 0,
                 ts_valid_bits := 36, ts_mask := ts_mask_init 36,
                 frames := init_slots true }

/-- A queue-family table whose family 0 is graphics-capable but reports
`timestampValidBits = 0`. -/
def envZeroBits : Env where
  qfs := [⟨0, true⟩]

/-- A queue-family table whose family 0 has timestamps but no graphics
bit. -/
def envNoGraphics : Env where
  qfs := [⟨48, false⟩]

/-- `initedCtx` whose ring slot 0 already carries frame serial 0 with one
query pair reserved and validated by an earlier successful instrumented
submit of the same frame. -/
def busySlotCtx : GpuCtx :=
  { initedCtx with
    frames := (init_slots true).set 0
      { cmd_pool := true, query_start := 0,
        query_capacity := MAX_QUERIES_PER_FRAME, query_used := 2,
        has_queries := true, frame_serial := 0, num_cmds := 4 } }

/-- A native submit oracle that always fails with an ordinary error. -/
def nativeFail : List Submission → VRes := fun _ => .errOther

/-- A native submit oracle that always reports `VK_ERROR_DEVICE_LOST`. -/
def nativeLost : List Submission → VRes := fun _ => .errDeviceLost

/-- A context whose currently closing 500 ms window holds exactly one
measured GPU sample of `g` ms and one sampled CPU frame of `c` ms. -/
def windowCtx (ctx : GpuCtx) (g c : ℚ) : GpuCtx :=
  { ctx with acc_gpu_ms := g, acc_gpu_samples := 1,
             acc_cpu_ms_sampled := c, acc_frames_sampled := 1 }

-- ====================== Helper lemmas ======================

/-- Masking with the 64-bit all-ones mask is reduction modulo `2^64`. -/
theorem land_umax (x : Nat) : x &&& UMAX = x % 2 ^ 64 := by
  simpa [UMAX] using Nat.and_pow_two_sub_one_eq_mod x 64

/-- Reading back the slot just written. -/
theorem slot_setSlot_self (ctx : GpuCtx) (i : Nat) (fr : FrameSlot) :
    (ctx.setSlot i fr).slot i =
      if i < ctx.frames.length then fr else default := by
  simp only [GpuCtx.setSlot, GpuCtx.slot, List.getD, List.get?_eq_getElem?]
  split
  · next h => rw [List.getElem?_set_eq_of_lt fr h]; rfl
  · next h =>
    rw [List.getElem?_eq_none (by simp only [List.length_set]; omega)]
    rfl

-- ====================== C10 ======================

/-- C10: `android_gpu_usage_get_metrics` returns `false` exactly when the
context is null, the environment flag is off, or no metrics window has
completed yet (`have_metrics = false`), and on every `false` return the
caller's two output cells are left exactly as the caller set them; values
are written through the pointers only on the `true`-returning path. -/
theorem C10_get_metrics_no_write_on_false (ctx : Option GpuCtx)
    (out : ℚ × ℚ) :
    ((get_metrics ctx out).1 = false ↔
      ctx = none ∨ ∃ c, ctx = some c ∧
        (c.envEnabled = false ∨ c.have_metrics = false)) ∧
    ((get_metrics ctx out).1 = false → (get_metrics ctx out).2 = out) := by
  cases ctx with
  | none => simp [get_metrics]
  | some c =>
    by_cases he : c.envEnabled <;> by_cases hm : c.have_metrics <;>
      simp [get_metrics, he, hm]

/-- Witness for C10 at a concrete environment-disabled context. -/
theorem C10_get_metrics_no_write_on_false_witness :
    (get_metrics (some { baseCtx with envEnabled := false }) (3, 7)).1 = false ∧
    (get_metrics (some { baseCtx with envEnabled := false }) (3, 7)).2 = (3, 7) :=
  ⟨rfl, (C10_get_metrics_no_write_on_false
    (some { baseCtx with envEnabled := false }) (3, 7)).2 rfl⟩

-- ====================== C6 ======================

/-- C6 is false as stated: when lazy initialization hits a queue family
with zero timestamp-valid bits, the code does not skip-and-retry — it
stores `ts_supported = false` (line 192), disabling the backend for the
context's lifetime, even though the claim says the backend stays enabled.
Only the missing-graphics-capability case is skipped silently. -/
theorem C6_counterexample :
    baseCtx.ts_supported = true ∧
    (init_timestamp_resources envZeroBits baseCtx 0).1 = false ∧
    (init_timestamp_resources envZeroBits baseCtx 0).2.ts_supported = false := by
  refine ⟨rfl, rfl, rfl⟩

/-- C6 amended: lazy initialization against a queue family that lacks the
graphics capability (but has non-zero timestamp-valid bits) is skipped,
not failed — the context is returned with the backend still enabled and
still uninitialized, so the next submit retries with a possibly different
family; a queue family with zero timestamp-valid bits, by contrast,
disables the backend (`ts_supported := false`) for the context's
lifetime. -/
theorem C6_amended (env : Env) (ctx : GpuCtx) (qfi : Nat)
    (hts : ctx.ts_supported = true) (hini : ctx.inited = false)
    (hlen : qfi < env.qfs.length) :
    ((env.qfs.getD qfi default).graphics = false →
      (env.qfs.getD qfi default).timestampValidBits ≠ 0 →
      init_timestamp_resources env ctx qfi =
        (false, { ctx with queue_family_index := some qfi })) ∧
    ((env.qfs.getD qfi default).timestampValidBits = 0 →
      init_timestamp_resources env ctx qfi =
        (false, { ctx with queue_family_index := some qfi,
                           ts_supported := false })) := by
  constructor
  · intro hg hvb
    have hg2 : (env.qfs[qfi]?.getD default).graphics = false := by
      simpa [List.getD, List.get?_eq_getElem?] using hg
    have hvb2 : ¬ (env.qfs[qfi]?.getD default).timestampValidBits = 0 := by
      simpa [List.getD, List.get?_eq_getElem?] using hvb
    simp [init_timestamp_resources, hts, hini, hg2, hvb2, Nat.not_le.2 hlen]
  · intro hvb
    have hvb2 : (env.qfs[qfi]?.getD default).timestampValidBits = 0 := by
      simpa [List.getD, List.get?_eq_getElem?] using hvb
    simp [init_timestamp_resources, hts, hini, hvb2, Nat.not_le.2 hlen]

/-- Witness for the amended C6 at concrete inputs (both arms). -/
theorem C6_amended_witness :
    init_timestamp_resources envNoGraphics baseCtx 0 =
      (false, { baseCtx with queue_family_index := some 0 }) ∧
    init_timestamp_resources envZeroBits baseCtx 0 =
      (false, { baseCtx with queue_family_index := some 0,
                             ts_supported := false }) :=
  ⟨(C6_amended envNoGraphics baseCtx 0 rfl rfl (by decide)).1 rfl (by decide),
   (C6_amended envZeroBits baseCtx 0 rfl rfl (by decide)).2 rfl⟩

-- ====================== C9 ======================

/-- C9: a submit-wrapper call made while the frame serial is odd is a
pure pass-through — the native submit is called once with the original,
unmodified list and the context state is returned unchanged (the
sampling gate `android_gpu_usage_should_sample`, lines 121-129 and
716-717/733-734); and among any `2*N` consecutive frame serials exactly
`N` (the even ones) are eligible for instrumentation. -/
theorem C9_odd_serial_passthrough {α : Type} (sh : SubShape α)
    (native : List α → VRes) (env : Env) (ctx : GpuCtx) (qfi : Nat)
    (subs : List α) (hodd : ctx.frame_index % 2 = 1) :
    queue_submit_core sh native env ctx qfi subs =
      (native subs, ctx, [subs]) ∧
    ∀ s N : Nat,
      ((List.range (2 * N)).countP (fun k => (s + k) % 2 = 0)) = N := by
  constructor
  · simp [queue_submit_core, hodd]
  · intro s N
    induction N with
    | zero => simp
    | succ n ih =>
      have h2 : 2 * (n + 1) = 2 * n + 1 + 1 := by ring
      rw [h2, List.range_succ, List.range_succ, List.countP_append,
          List.countP_append, ih]
      simp only [List.countP_cons, List.countP_nil]
      split_ifs <;> simp_all <;> omega

/-- Witness for C9: a concrete odd-serial call passes through, and 3 of 6
consecutive serials starting at 5 are even. -/
theorem C9_odd_serial_passthrough_witness :
    queue_submit_core shapeV1 (fun _ => VRes.success) env0
        { baseCtx with frame_index := 1 } 0 [⟨[CB.appCB 0]⟩] =
      ((fun _ => VRes.success) [(⟨[CB.appCB 0]⟩ : Submission)],
        { baseCtx with frame_index := 1 }, [[⟨[CB.appCB 0]⟩]]) ∧
    ((List.range (2 * 3)).countP (fun k => (5 + k) % 2 = 0)) = 3 :=
  ⟨(C9_odd_serial_passthrough shapeV1 (fun _ => VRes.success) env0
      { baseCtx with frame_index := 1 } 0 [⟨[CB.appCB 0]⟩] rfl).1,
   (C9_odd_serial_passthrough shapeV1 (fun _ => VRes.success) env0
      { baseCtx with frame_index := 1 } 0 [⟨[CB.appCB 0]⟩] rfl).2 5 3⟩

-- ====================== C4 ======================

/-- C4: wraparound correctness of the per-pair decode (lines 507-519).
For every valid-bit width `0 < b < 64` and raw start/end ticks whose
masked end precedes the masked start, the decoded duration
`pairEnd - pairStart` — exactly the `delta` the GPU-ms computation feeds
into `collectStep` — equals `(end - start) mod 2^b` and is strictly below
`2^b`: never a negative or huge unsigned value. -/
theorem C4_wraparound_decode (b sRaw eRaw : Nat) (hb0 : 0 < b)
    (hb : b < 64)
    (hw : eRaw &&& ts_mask_init b < sRaw &&& ts_mask_init b) :
    ((pairEnd b (ts_mask_init b) ⟨sRaw, 1, eRaw, 1⟩ -
        pairStart (ts_mask_init b) ⟨sRaw, 1, eRaw, 1⟩ : Nat) : ℤ) =
      ((eRaw : ℤ) - (sRaw : ℤ)) % 2 ^ b ∧
    pairEnd b (ts_mask_init b) ⟨sRaw, 1, eRaw, 1⟩ -
      pairStart (ts_mask_init b) ⟨sRaw, 1, eRaw, 1⟩ < 2 ^ b := by
  have hmask : ts_mask_init b = 2 ^ b - 1 := by
    simp [ts_mask_init, Nat.not_le.2 hb]
  have hs : pairStart (ts_mask_init b) ⟨sRaw, 1, eRaw, 1⟩ = sRaw % 2 ^ b := by
    simp [pairStart, hmask, Nat.and_pow_two_sub_one_eq_mod]
  have heland : eRaw &&& ts_mask_init b = eRaw % 2 ^ b := by
    simp [hmask, Nat.and_pow_two_sub_one_eq_mod]
  have hwlt : eRaw % 2 ^ b < sRaw % 2 ^ b := by
    rw [heland, hmask] at hw
    simpa [Nat.and_pow_two_sub_one_eq_mod] using hw
  have he : pairEnd b (ts_mask_init b) ⟨sRaw, 1, eRaw, 1⟩ =
      eRaw % 2 ^ b + 2 ^ b := by
    simp only [pairEnd, heland, hs]
    rw [if_pos ⟨hb0, hb, hwlt⟩]
  have hslt : sRaw % 2 ^ b < 2 ^ b := Nat.mod_lt _ (by positivity)
  have helt : eRaw % 2 ^ b < 2 ^ b := Nat.mod_lt _ (by positivity)
  refine ⟨?_, ?_⟩
  · rw [hs, he]
    have hle : sRaw % 2 ^ b ≤ eRaw % 2 ^ b + 2 ^ b := by omega
    rw [Int.ofNat_sub hle]
    have hmodE : ((eRaw % 2 ^ b : Nat) : ℤ) = (eRaw : ℤ) % 2 ^ b := by
      push_cast
      rfl
    have hmodS : ((sRaw % 2 ^ b : Nat) : ℤ) = (sRaw : ℤ) % 2 ^ b := by
      push_cast
      rfl
    have hsub : ((eRaw : ℤ) - sRaw) % 2 ^ b =
        ((eRaw : ℤ) % 2 ^ b - (sRaw : ℤ) % 2 ^ b) % 2 ^ b :=
      Int.sub_emod _ _ _
    have hshift : ((eRaw : ℤ) % 2 ^ b - (sRaw : ℤ) % 2 ^ b) % 2 ^ b =
        ((eRaw : ℤ) % 2 ^ b - (sRaw : ℤ) % 2 ^ b + 2 ^ b) % 2 ^ b :=
      (Int.add_emod_self).symm
    have hEb : (0 : ℤ) ≤ (eRaw : ℤ) % 2 ^ b := Int.emod_nonneg _ (by positivity)
    have hSb : ((sRaw : ℤ) % 2 ^ b) < 2 ^ b := by
      rw [← hmodS]
      exact_mod_cast hslt
    have hES : (eRaw : ℤ) % 2 ^ b < (sRaw : ℤ) % 2 ^ b := by
      rw [← hmodE, ← hmodS]
      exact_mod_cast hwlt
    have hval : ((eRaw : ℤ) % 2 ^ b - (sRaw : ℤ) % 2 ^ b + 2 ^ b) % 2 ^ b =
        (eRaw : ℤ) % 2 ^ b - (sRaw : ℤ) % 2 ^ b + 2 ^ b := by
      apply Int.emod_eq_of_lt <;> omega
    rw [hsub, hshift, hval]
    push_cast
    ring
  · rw [hs, he]
    omega

/-- Witness for C4 at `b = 4`, masked start `14`, masked end `3`: the
decoded duration is `5 = (3 - 14) mod 16`. -/
theorem C4_wraparound_decode_witness :
    (0 < 4 ∧ 4 < 64 ∧ 3 &&& ts_mask_init 4 < 14 &&& ts_mask_init 4) ∧
    ((pairEnd 4 (ts_mask_init 4) ⟨14, 1, 3, 1⟩ -
        pairStart (ts_mask_init 4) ⟨14, 1, 3, 1⟩ : Nat) : ℤ) =
      ((3 : ℤ) - (14 : ℤ)) % 2 ^ 4 ∧
    pairEnd 4 (ts_mask_init 4) ⟨14, 1, 3, 1⟩ -
      pairStart (ts_mask_init 4) ⟨14, 1, 3, 1⟩ < 2 ^ 4 :=
  ⟨by decide,
   (C4_wraparound_decode 4 14 3 (by decide) (by decide) (by decide)).1,
   (C4_wraparound_decode 4 14 3 (by decide) (by decide) (by decide)).2⟩

-- ====================== C5 ======================

/-- C5: atomic availability (lines 487-497).  On a successful driver
read, if any queried pair of the range has a zero availability word the
whole read returns `NotReady` and writes no GPU-ms value; conversely a
`Ready` status — on any driver result — is only produced when every pair
in the range is available. -/
theorem C5_atomic_availability (vb mask : Nat) (period : ℚ) (r : VRes)
    (pairs : List PairRaw) :
    (∀ p ∈ pairs, (p.sAvail = 0 ∨ p.eAvail = 0) →
      query_range_gpu_ms vb mask period .success pairs = (.NotReady, none)) ∧
    ((query_range_gpu_ms vb mask period r pairs).1 = .Ready →
      ∀ p ∈ pairs, p.sAvail ≠ 0 ∧ p.eAvail ≠ 0) := by
  have hNR : ∀ p ∈ pairs, (p.sAvail = 0 ∨ p.eAvail = 0) →
      query_range_gpu_ms vb mask period .success pairs = (.NotReady, none) := by
    intro p hp hav
    have hne : pairs.isEmpty = false := by
      cases pairs with
      | nil => cases hp
      | cons a l => rfl
    have hany : (pairs.any fun p => p.sAvail = 0 ∨ p.eAvail = 0) = true := by
      simp only [List.any_eq_true, decide_eq_true_eq]
      exact ⟨p, hp, hav⟩
    simp only [query_range_gpu_ms, hne, hany]
    simp
  refine ⟨hNR, ?_⟩
  intro hr p hp
  have hne : pairs.isEmpty = false := by
    cases pairs with
    | nil => cases hp
    | cons a l => rfl
  by_cases hav : p.sAvail = 0 ∨ p.eAvail = 0
  · exfalso
    cases r with
    | success => rw [hNR p hp hav] at hr; cases hr
    | notReady => simp [query_range_gpu_ms, hne] at hr
    | errDeviceLost => simp [query_range_gpu_ms, hne] at hr
    | errOther => simp [query_range_gpu_ms, hne] at hr
  · exact ⟨fun h => hav (Or.inl h), fun h => hav (Or.inr h)⟩

/-- Witness for C5: a concrete two-pair range whose second pair has an
unavailable end query reads as `NotReady` with no value written, and a
concrete Ready read has all pairs available. -/
theorem C5_atomic_availability_witness :
    query_range_gpu_ms 64 (ts_mask_create 64) 1000000 .success
      [⟨0, 1, 10, 1⟩, ⟨5, 1, 15, 0⟩] = (.NotReady, none) :=
  (C5_atomic_availability 64 (ts_mask_create 64) 1000000 .success
    [⟨0, 1, 10, 1⟩, ⟨5, 1, 15, 0⟩]).1 ⟨5, 1, 15, 0⟩ (by decide) (by decide)

-- ====================== C8 ======================

/-- C8: a 500 ms metrics window that closes with no usable GPU samples
(lines 1276-1318) leaves `smooth_usage`, `smooth_gpu_ms`, `last_usage`,
`last_gpu_ms` and `have_metrics` exactly unchanged — never reset to
zero — while the window accumulators are cleared and the window timer
restarts at the closing instant. -/
theorem C8_empty_window_keeps_outputs (now : ℚ) (ctx : GpuCtx)
    (helapsed : 500 ≤ now - ctx.window_start)
    (hnone : ctx.acc_gpu_samples = 0 ∨ ctx.acc_frames_sampled = 0 ∨
      ctx.acc_cpu_ms_sampled ≤ 0) :
    (metrics_window_update now ctx).smooth_usage = ctx.smooth_usage ∧
    (metrics_window_update now ctx).smooth_gpu_ms = ctx.smooth_gpu_ms ∧
    (metrics_window_update now ctx).last_usage = ctx.last_usage ∧
    (metrics_window_update now ctx).last_gpu_ms = ctx.last_gpu_ms ∧
    (metrics_window_update now ctx).have_metrics = ctx.have_metrics ∧
    (metrics_window_update now ctx).acc_gpu_samples = 0 ∧
    (metrics_window_update now ctx).acc_frames_sampled = 0 ∧
    (metrics_window_update now ctx).acc_gpu_ms = 0 ∧
    (metrics_window_update now ctx).acc_cpu_ms_sampled = 0 ∧
    (metrics_window_update now ctx).window_start = now := by
  have hcond : ¬ (0 < ctx.acc_gpu_samples ∧ 0 < ctx.acc_frames_sampled ∧
      0 < ctx.acc_cpu_ms_sampled) := by
    rcases hnone with h | h | h
    · simp [h]
    · simp [h]
    · intro hc
      exact absurd hc.2.2 (not_lt.2 h)
  simp [metrics_window_update, helapsed, hcond]

/-- Witness for C8: a concrete window with prior smoothed outputs and
zero GPU samples closes without touching them. -/
theorem C8_empty_window_keeps_outputs_witness :
    (metrics_window_update 600
        { baseCtx with have_metrics := true, smooth_usage := 33,
                       smooth_gpu_ms := 4, last_usage := 33, last_gpu_ms := 4,
                       acc_cpu_ms_sampled := 5, acc_frames_sampled := 3 }).smooth_usage =
      ({ baseCtx with have_metrics := true, smooth_usage := 33,
                      smooth_gpu_ms := 4, last_usage := 33, last_gpu_ms := 4,
                      acc_cpu_ms_sampled := 5, acc_frames_sampled := 3 } : GpuCtx).smooth_usage ∧
    (metrics_window_update 600
        { baseCtx with have_metrics := true, smooth_usage := 33,
                       smooth_gpu_ms := 4, last_usage := 33, last_gpu_ms := 4,
                       acc_cpu_ms_sampled := 5, acc_frames_sampled := 3 }).have_metrics =
      ({ baseCtx with have_metrics := true, smooth_usage := 33,
                      smooth_gpu_ms := 4, last_usage := 33, last_gpu_ms := 4,
                      acc_cpu_ms_sampled := 5, acc_frames_sampled := 3 } : GpuCtx).have_metrics := by
  refine ⟨(C8_empty_window_keeps_outputs 600 _ ?_ (Or.inl rfl)).1,
          (C8_empty_window_keeps_outputs 600 _ ?_ (Or.inl rfl)).2.2.2.2.1⟩ <;>
    norm_num [baseCtx]

-- ====================== C7 ======================

/-- C7: every window closing with usable samples computes
`usage = (avg_gpu_ms / avg_cpu_ms) * 100` clamped to `[0, 100]`
(`usageOf`), marks metrics available, and exposes
`old * 0.5 + usage * 0.5` — except the very first window, which is
emitted unblended; concretely, window usages 20 then 60 with no prior
history emit 20 then 40 (lines 1274-1307). -/
theorem C7_smoothing_alpha_half :
    (∀ (now : ℚ) (ctx : GpuCtx), 500 ≤ now - ctx.window_start →
      0 < ctx.acc_gpu_samples → 0 < ctx.acc_frames_sampled →
      0 < ctx.acc_cpu_ms_sampled →
      (0 ≤ usageOf ctx ∧ usageOf ctx ≤ 100) ∧
      (metrics_window_update now ctx).last_usage =
        (if ctx.have_metrics then
          ctx.smooth_usage * (1 - 1 / 2) + usageOf ctx * (1 / 2)
         else usageOf ctx) ∧
      (metrics_window_update now ctx).have_metrics = true) ∧
    (metrics_window_update 500 (windowCtx baseCtx 2 10)).last_usage = 20 ∧
    (metrics_window_update 1000
        (windowCtx (metrics_window_update 500 (windowCtx baseCtx 2 10))
          6 10)).last_usage = 40 := by
  refine ⟨?_, ?_, ?_⟩
  · intro now ctx he h1 h2 h3
    have hcond : 0 < ctx.acc_gpu_samples ∧ 0 < ctx.acc_frames_sampled ∧
        0 < ctx.acc_cpu_ms_sampled := ⟨h1, h2, h3⟩
    refine ⟨?_, ?_, ?_⟩
    · unfold usageOf
      constructor
      · dsimp only
        split_ifs <;> linarith
      · dsimp only
        split_ifs <;> linarith
    · by_cases hm : ctx.have_metrics <;>
        simp [metrics_window_update, he, hcond, hm]
    · simp [metrics_window_update, he, hcond]
  · norm_num [metrics_window_update, usageOf, windowCtx, baseCtx]
  · norm_num [metrics_window_update, usageOf, windowCtx, baseCtx]

/-- Witness for C7's general clause at the concrete first window
(usage 20, no prior history). -/
theorem C7_smoothing_alpha_half_witness :
    (0 ≤ usageOf (windowCtx baseCtx 2 10) ∧
      usageOf (windowCtx baseCtx 2 10) ≤ 100) ∧
    (metrics_window_update 500 (windowCtx baseCtx 2 10)).last_usage =
      (if (windowCtx baseCtx 2 10).have_metrics then
        (windowCtx baseCtx 2 10).smooth_usage * (1 - 1 / 2) +
          usageOf (windowCtx baseCtx 2 10) * (1 / 2)
       else usageOf (windowCtx baseCtx 2 10)) ∧
    (metrics_window_update 500 (windowCtx baseCtx 2 10)).have_metrics = true :=
  C7_smoothing_alpha_half.1 500 (windowCtx baseCtx 2 10)
    (by norm_num [windowCtx, baseCtx]) (by decide) (by decide)
    (by norm_num [windowCtx])

-- ====================== C2 ======================

/-- Out-of-range slot reads give the default slot. -/
theorem slot_out_of_range (c : GpuCtx) (i : Nat)
    (h : c.frames.length ≤ i) : c.slot i = default := by
  unfold GpuCtx.slot
  simp only [List.getD, List.get?_eq_getElem?]
  rw [List.getElem?_eq_none h]
  rfl

/-- After `destroy_resources` every slot is cleared. -/
theorem slot_destroy_resources (c : GpuCtx) (i : Nat) :
    ((destroy_resources c).slot i).query_used = 0 ∧
    ((destroy_resources c).slot i).has_queries = false := by
  unfold destroy_resources GpuCtx.slot
  simp only [List.getD, List.get?_eq_getElem?, List.getElem?_map]
  cases h : c.frames[i]? with
  | none => exact ⟨rfl, rfl⟩
  | some fr => simp

/-- The instrumented tail performs exactly one native submit call, whose
result it returns (lines 853-864 / 1067-1078: there is no second,
fallback call on the non-exception path). -/
theorem instrumentAndSubmit_one_call {α : Type} (sh : SubShape α)
    (native : List α → VRes) (env : Env) (ctx : GpuCtx) (idx : Nat)
    (subs : List α) :
    ∃ l, (instrumentAndSubmit sh native env ctx idx subs).2.2 = [l] ∧
      (instrumentAndSubmit sh native env ctx idx subs).1 = native l := by
  by_cases hp : (planSubmits sh (ctx.slot idx) subs).any id = true
  · simp only [instrumentAndSubmit, hp, not_true_eq_false, if_false]
    refine ⟨(recordLoop sh env ctx.inited (ctx.slot idx)
      (subs.zip (planSubmits sh (ctx.slot idx) subs))).2, ?_, ?_⟩ <;>
      split_ifs <;> rfl
  · simp only [instrumentAndSubmit, hp]
    exact ⟨subs, by simp [hp], by simp [hp]⟩

/-- C2 is false as stated: when the native submit of the augmented list
fails, the wrapper does not re-attempt the original list — it rolls the
reservation back and returns the error.  Concretely, with a native
submit that always fails with an ordinary error, the single native call
receives the wrapped list `[begin, app, end]`; the original one-element
list never reaches the native submit. -/
theorem C2_counterexample :
    (queue_submit nativeFail env0 initedCtx 0 [⟨[CB.appCB 7]⟩]).1 =
      .errOther ∧
    (queue_submit nativeFail env0 initedCtx 0 [⟨[CB.appCB 7]⟩]).2.2 =
      [[⟨[CB.tsCB 0, CB.appCB 7, CB.tsCB 1]⟩]] ∧
    [(⟨[CB.appCB 7]⟩ : Submission)] ∉
      (queue_submit nativeFail env0 initedCtx 0 [⟨[CB.appCB 7]⟩]).2.2 := by
  refine ⟨by decide, by decide, by decide⟩

/-- C2 amended: every call to either submit wrapper performs exactly one
native submit, whose result is returned to the application; on failure
of the augmented list the wrapper rolls back its reservation and
propagates that single call's error — it never re-attempts the
original, unmodified list (the original-list fallback exists only on the
C++ exception paths, which the ordinary failure path does not take). -/
theorem C2_amended_one_native_submit {α : Type} (sh : SubShape α)
    (native : List α → VRes) (env : Env) (ctx : GpuCtx) (qfi : Nat)
    (subs : List α) :
    ∃ l, (queue_submit_core sh native env ctx qfi subs).2.2 = [l] ∧
      (queue_submit_core sh native env ctx qfi subs).1 = native l := by
  simp only [queue_submit_core]
  split_ifs <;>
    first
      | exact ⟨subs, rfl, rfl⟩
      | exact instrumentAndSubmit_one_call sh native env _ _ subs


-- ====================== C3 ======================

/-- Shape of the instrumented tail when at least one submission was
planned for instrumentation: one native call on the recorded wrapped
list, then the success / ordinary-failure / device-lost postludes. -/
theorem instrumentAndSubmit_eq_of_any {α : Type} (sh : SubShape α)
    (native : List α → VRes) (env : Env) (ctx : GpuCtx) (idx : Nat)
    (subs : List α) (w : FrameSlot × List α)
    (hw : recordLoop sh env ctx.inited (ctx.slot idx)
        (subs.zip (planSubmits sh (ctx.slot idx) subs)) = w)
    (hany : (planSubmits sh (ctx.slot idx) subs).any id = true) :
    instrumentAndSubmit sh native env ctx idx subs =
      (if native w.2 = .success then (native w.2, ctx.setSlot idx w.1, [w.2])
       else if native w.2 = .errDeviceLost then
        (native w.2,
         destroy_resources
           { (ctx.setSlot idx w.1).setSlot idx
               { w.1 with query_used := (ctx.slot idx).query_used,
                          has_queries := (ctx.slot idx).has_queries } with
             ts_supported := false }, [w.2])
       else
        (native w.2,
         (ctx.setSlot idx w.1).setSlot idx
           { w.1 with query_used := (ctx.slot idx).query_used,
                      has_queries := (ctx.slot idx).has_queries }, [w.2])) := by
  subst hw
  simp only [instrumentAndSubmit, hany, not_true_eq_false, if_false]

/-- C3 is false as stated when the native failure is
`VK_ERROR_DEVICE_LOST`: the wrapper first restores the snapshot
(lines 855-857) but then tears all timestamp resources down
(lines 859-862), clearing the slot.  Concretely, starting from a slot of
the current frame that already holds one validated pair
(`query_used = 2`), a device-lost submit leaves `query_used = 0`, not
the pre-attempt value 2. -/
theorem C3_counterexample :
    (busySlotCtx.slot 0).query_used = 2 ∧
    (queue_submit nativeLost env0 busySlotCtx 0 [⟨[CB.appCB 7]⟩]).1 ≠
      .success ∧
    ((queue_submit nativeLost env0 busySlotCtx 0
        [⟨[CB.appCB 7]⟩]).2.1.slot 0).query_used = 0 := by
  refine ⟨by decide, by decide, by decide⟩

/-- C3 amended: when the native submit of the augmented list fails with
an ordinary (non-device-lost) error, the slot's `query_used` and
`has_queries` after the call equal their values at the pre-attempt
snapshot — no reservations leak.  When the failure is
`VK_ERROR_DEVICE_LOST`, the snapshot restore is followed by the
destruction of all timestamp resources, so the slot ends either restored
or fully cleared (`query_used = 0`, `has_queries = false`); in neither
case does a reserved-but-unsubmitted pair remain. -/
theorem C3_amended_rollback {α : Type} (sh : SubShape α)
    (native : List α → VRes) (env : Env) (ctx : GpuCtx) (idx : Nat)
    (subs : List α)
    (hfail : (instrumentAndSubmit sh native env ctx idx subs).1 ≠ .success) :
    ((instrumentAndSubmit sh native env ctx idx subs).1 ≠ .errDeviceLost →
      ((instrumentAndSubmit sh native env ctx idx subs).2.1.slot idx).query_used =
        (ctx.slot idx).query_used ∧
      ((instrumentAndSubmit sh native env ctx idx subs).2.1.slot idx).has_queries =
        (ctx.slot idx).has_queries) ∧
    ((instrumentAndSubmit sh native env ctx idx subs).1 = .errDeviceLost →
      (((instrumentAndSubmit sh native env ctx idx subs).2.1.slot idx).query_used =
          (ctx.slot idx).query_used ∧
        ((instrumentAndSubmit sh native env ctx idx subs).2.1.slot idx).has_queries =
          (ctx.slot idx).has_queries) ∨
      (((instrumentAndSubmit sh native env ctx idx subs).2.1.slot idx).query_used = 0 ∧
        ((instrumentAndSubmit sh native env ctx idx subs).2.1.slot idx).has_queries = false)) := by
  by_cases hp : (planSubmits sh (ctx.slot idx) subs).any id = true
  · obtain ⟨w, hw⟩ : ∃ w, recordLoop sh env ctx.inited (ctx.slot idx)
        (subs.zip (planSubmits sh (ctx.slot idx) subs)) = w := ⟨_, rfl⟩
    rw [instrumentAndSubmit_eq_of_any sh native env ctx idx subs w hw hp]
      at hfail ⊢
    by_cases hs : native w.2 = .success
    · rw [if_pos hs] at hfail
      exact absurd hs hfail
    · rw [if_neg hs] at hfail ⊢
      by_cases hdl : native w.2 = .errDeviceLost
      · rw [if_pos hdl]
        dsimp only
        exact ⟨fun hne => absurd hdl hne,
               fun _ => Or.inr (slot_destroy_resources _ idx)⟩
      · rw [if_neg hdl]
        dsimp only
        have hrest :
            (((ctx.setSlot idx w.1).setSlot idx
                { w.1 with query_used := (ctx.slot idx).query_used,
                           has_queries := (ctx.slot idx).has_queries }).slot
              idx).query_used = (ctx.slot idx).query_used ∧
            (((ctx.setSlot idx w.1).setSlot idx
                { w.1 with query_used := (ctx.slot idx).query_used,
                           has_queries := (ctx.slot idx).has_queries }).slot
              idx).has_queries = (ctx.slot idx).has_queries := by
          rw [slot_setSlot_self]
          by_cases hlen : idx < (ctx.setSlot idx w.1).frames.length
          · rw [if_pos hlen]
            exact ⟨rfl, rfl⟩
          · rw [if_neg hlen]
            rw [slot_out_of_range ctx idx
              (by simpa [GpuCtx.setSlot] using Nat.le_of_not_lt hlen)]
            exact ⟨rfl, rfl⟩
        exact ⟨fun _ => hrest, fun h => absurd h hdl⟩
  · have heq : instrumentAndSubmit sh native env ctx idx subs =
        (native subs, ctx, [subs]) := by
      simp [instrumentAndSubmit, hp]
    rw [heq]
    exact ⟨fun _ => ⟨rfl, rfl⟩, fun _ => Or.inl ⟨rfl, rfl⟩⟩

/-- Witness for the amended C3: an ordinary native failure on a slot
already holding one validated pair restores `query_used = 2` and
`has_queries` exactly. -/
theorem C3_amended_rollback_witness :
    (instrumentAndSubmit shapeV1 nativeFail env0 busySlotCtx 0
        [⟨[CB.appCB 7]⟩]).1 ≠ .success ∧
    ((instrumentAndSubmit shapeV1 nativeFail env0 busySlotCtx 0
        [⟨[CB.appCB 7]⟩]).2.1.slot 0).query_used =
      (busySlotCtx.slot 0).query_used ∧
    ((instrumentAndSubmit shapeV1 nativeFail env0 busySlotCtx 0
        [⟨[CB.appCB 7]⟩]).2.1.slot 0).has_queries =
      (busySlotCtx.slot 0).has_queries :=
  ⟨by decide,
   ((C3_amended_rollback shapeV1 nativeFail env0 busySlotCtx 0
      [⟨[CB.appCB 7]⟩] (by decide)).1 (by decide)).1,
   ((C3_amended_rollback shapeV1 nativeFail env0 busySlotCtx 0
      [⟨[CB.appCB 7]⟩] (by decide)).1 (by decide)).2⟩

-- ====================== C1 ======================

/-- The per-pair accumulation step is right-commutative: processing two
pairs in either order produces the same
`(min_start_ts, max_end_ts, sum_ms)` accumulator. -/
theorem collectStep_right_comm (vb mask : Nat) (period : ℚ)
    (acc : Nat × Nat × ℚ) (p q : PairRaw) :
    collectStep vb mask period (collectStep vb mask period acc p) q =
      collectStep vb mask period (collectStep vb mask period acc q) p := by
  obtain ⟨mn, mx, sm⟩ := acc
  by_cases hp : pairEnd vb mask p ≤ pairStart mask p <;>
    by_cases hq : pairEnd vb mask q ≤ pairStart mask q <;>
    simp only [collectStep, hp, hq, if_true, if_false, ite_true, ite_false]
  simp only [Prod.mk.injEq]
  refine ⟨?_, ?_, ?_⟩
  · split_ifs <;> omega
  · split_ifs <;> omega
  · split_ifs <;> ring

/-- The pair fold is invariant under permutation of the pairs. -/
theorem foldl_collect_perm (vb mask : Nat) (period : ℚ)
    {l₁ l₂ : List PairRaw} (h : l₁.Perm l₂) (init : Nat × Nat × ℚ) :
    l₁.foldl (collectStep vb mask period) init =
      l₂.foldl (collectStep vb mask period) init :=
  h.foldl_eq' (fun x _ y _ z => collectStep_right_comm vb mask period z x y)
    init

/-- The whole per-slot GPU-ms computation is invariant to the order of
the decoded pairs. -/
theorem query_range_perm (vb mask : Nat) (period : ℚ) (r : VRes)
    {l₁ l₂ : List PairRaw} (h : l₁.Perm l₂) :
    query_range_gpu_ms vb mask period r l₁ =
      query_range_gpu_ms vb mask period r l₂ := by
  have hemp : l₁.isEmpty = l₂.isEmpty := by
    have hl := h.length_eq
    cases l₁ <;> cases l₂ <;> simp_all
  have hany : (l₁.any fun p => p.sAvail = 0 ∨ p.eAvail = 0) =
      (l₂.any fun p => p.sAvail = 0 ∨ p.eAvail = 0) := by
    rw [Bool.eq_iff_iff]
    simp only [List.any_eq_true]
    exact ⟨fun ⟨x, hx, hfx⟩ => ⟨x, h.mem_iff.mp hx, hfx⟩,
           fun ⟨x, hx, hfx⟩ => ⟨x, h.mem_iff.mpr hx, hfx⟩⟩
  have hfold := foldl_collect_perm vb mask period h (UMAX, 0, 0)
  simp only [query_range_gpu_ms, hemp, hany, hfold]

/-- C1 is false as stated: the busy-time computation of
`android_gpu_usage_query_range_gpu_ms` (lines 499-541) performs no
interval merging — it sums each pair's duration independently.  With
ticks worth 1 ms (`ts_period_ns = 10^6`), the overlapping pairs
`[[0,10),[5,15)]` therefore produce 20 ms (10 + 10), not the merged
union length 15 the claim requires. -/
theorem C1_counterexample :
    query_range_gpu_ms 64 (ts_mask_create 64) 1000000 .success
      [⟨0, 1, 10, 1⟩, ⟨5, 1, 15, 1⟩] = (.Ready, some 20) ∧
    (20 : ℚ) ≠ 15 := by
  constructor
  · have hm : ts_mask_create 64 = UMAX := by norm_num [ts_mask_create]
    rw [hm]
    simp only [query_range_gpu_ms, List.isEmpty_cons, List.any_cons,
      List.any_nil, List.foldl_cons, List.foldl_nil, collectStep, pairStart,
      pairEnd, land_umax]
    norm_num [UMAX]
  · norm_num

/-- C1 amended: the per-slot busy-time computation sums each decoded
`[start,end)` pair duration independently, with no overlap merging; the
result is invariant to the input order of the pairs.  With 1 ms ticks the
overlapping pairs `[[0,10),[5,15)]` yield 20 ms of busy time (not 15),
and the disjoint pairs `[[0,10),[20,30)]` yield 20 ms. -/
theorem C1_amended_sum_no_merge :
    (∀ (vb mask : Nat) (period : ℚ) (r : VRes) (l₁ l₂ : List PairRaw),
      l₁.Perm l₂ →
      query_range_gpu_ms vb mask period r l₁ =
        query_range_gpu_ms vb mask period r l₂) ∧
    query_range_gpu_ms 64 (ts_mask_create 64) 1000000 .success
      [⟨0, 1, 10, 1⟩, ⟨5, 1, 15, 1⟩] = (.Ready, some 20) ∧
    query_range_gpu_ms 64 (ts_mask_create 64) 1000000 .success
      [⟨0, 1, 10, 1⟩, ⟨20, 1, 30, 1⟩] = (.Ready, some 20) := by
  refine ⟨fun vb mask period r l₁ l₂ h => query_range_perm vb mask period r h,
          ?_, ?_⟩ <;>
  · have hm : ts_mask_create 64 = UMAX := by norm_num [ts_mask_create]
    rw [hm]
    simp only [query_range_gpu_ms, List.isEmpty_cons, List.any_cons,
      List.any_nil, List.foldl_cons, List.foldl_nil, collectStep, pairStart,
      pairEnd, land_umax]
    norm_num [UMAX]

/-- Witness for the amended C1: swapping the two overlapping pairs does
not change the computed value. -/
theorem C1_amended_sum_no_merge_witness :
    query_range_gpu_ms 64 (ts_mask_create 64) 1000000 .success
      [⟨5, 1, 15, 1⟩, ⟨0, 1, 10, 1⟩] =
    query_range_gpu_ms 64 (ts_mask_create 64) 1000000 .success
      [⟨0, 1, 10, 1⟩, ⟨5, 1, 15, 1⟩] :=
  C1_amended_sum_no_merge.1 64 (ts_mask_create 64) 1000000 .success
    [⟨5, 1, 15, 1⟩, ⟨0, 1, 10, 1⟩] [⟨0, 1, 10, 1⟩, ⟨5, 1, 15, 1⟩]
    (List.Perm.swap (⟨0, 1, 10, 1⟩ : PairRaw) (⟨5, 1, 15, 1⟩ : PairRaw) [])
